import Mathlib

/-!
Verification of the answer-grading pipeline of `src/utils.py`
(`analyze_with_gemini` and its helpers).

The Python function is shallowly embedded as follows:

* A parsed JSON document (`json.loads` output) is a `JsonVal`; Python dicts
  become association lists with last-occurrence-wins lookup (`lookupLast`),
  matching Python's duplicate-key semantics for `json.loads`.
* `json.loads` itself is standard-library code, not repository code, so it is
  abstracted as a parameter `parse : List Char → Option JsonVal` of the
  normalization step; `none` models a `json.JSONDecodeError`.
* Python `float(x)` is embedded as `pyFloat` (numbers and booleans convert;
  simple decimal string literals convert; `None`, lists, dicts and
  non-numeric strings raise, modelled as `none`).  Python `str(x)` is
  embedded as `pyStr`; only its action on strings matters to the code's
  observable feedback fields.
* Machine floats are idealized as exact rationals (`ℚ`).
* The `while retry_count < max_retries` loop at lines 117-160 of
  `src/utils.py` is `retryAux`/`runRetries`, counting one external call per
  iteration.  The terminal `raise ValueError("Failed to get valid response
  after ...")` occurs inside the `except` handler, so Python implicitly
  chains the last underlying exception (`__context__`); this is modelled by
  `PipelineError.retriesExhausted` carrying the last `ParseError`.
-/

namespace AssignmentGrading

/-- A parsed JSON value, the result type of the abstracted `json.loads`. -/
inductive JsonVal where
  | null
  | bool (b : Bool)
  | num (q : ℚ)
  | str (s : String)
  | arr (elems : List JsonVal)
  | obj (fields : List (String × JsonVal))

/-- Lookup in a JSON object: the LAST binding of a key wins, matching the
dict produced by Python's `json.loads` on duplicate keys. -/
def lookupLast (fields : List (String × JsonVal)) (k : String) : Option JsonVal :=
  match fields with
  | [] => none
  | (k2, v) :: rest =>
    match lookupLast rest k with
    | some w => some w
    | none => if k2 = k then some v else none

/-- Membership test `k in d` on a parsed JSON object. -/
def hasKey (fields : List (String × JsonVal)) (k : String) : Bool :=
  (lookupLast fields k).isSome

/-- The `marks`/`feedback` pair the scaler reads from one rubric section
after normalization (`result[section]['marks']`, `result[section]['feedback']`). -/
structure RawSection where
  marks : JsonVal
  feedback : JsonVal

/-- The normalized rubric produced by the validation step inside the retry
loop: the five section entries plus the (possibly defaulted)
`ai_detection_score` value. -/
structure RawRubric where
  introduction : RawSection
  main_body : RawSection
  conclusion : RawSection
  examples : RawSection
  diagrams : RawSection
  ai_detection_score : JsonVal

/-- Failure modes of one normalization attempt (each raised as a
`ValueError` inside the `try` block of the retry loop; `topLevelNotObject`
stands for the `TypeError`-like failures Python produces when the parsed
top-level value is not a dict). -/
inductive ParseError where
  | emptyResponse
  | noJsonFound
  | invalidJson
  | missingSection (name : String)
  | topLevelNotObject
  deriving DecidableEq

/-- `required_fields` of `src/utils.py` line 143. -/
def requiredFields : List String :=
  ["introduction", "main_body", "conclusion", "examples", "diagrams"]

/-- Lines 147-150: a section value that is not a dict, or lacks a `marks`
or `feedback` key, is silently replaced by the default
`{marks: 0, feedback: 'No feedback available'}`; otherwise its `marks` and
`feedback` entries are kept. -/
def repairSection (v : JsonVal) : RawSection :=
  match v with
  | .obj fs =>
    if hasKey fs "marks" && hasKey fs "feedback" then
      ⟨(lookupLast fs "marks").getD .null, (lookupLast fs "feedback").getD .null⟩
    else
      ⟨.num 0, .str "No feedback available"⟩
  | _ => ⟨.num 0, .str "No feedback available"⟩

/-- Lines 143-153: check the five required section keys in order, raising
`Missing required field` for the first absent one, repairing each present
one, and defaulting `ai_detection_score` to `0.0` when absent. -/
def validateObj (fields : List (String × JsonVal)) : Except ParseError RawRubric :=
  match lookupLast fields "introduction" with
  | none => .error (.missingSection "introduction")
  | some vi =>
    match lookupLast fields "main_body" with
    | none => .error (.missingSection "main_body")
    | some vm =>
      match lookupLast fields "conclusion" with
      | none => .error (.missingSection "conclusion")
      | some vc =>
        match lookupLast fields "examples" with
        | none => .error (.missingSection "examples")
        | some ve =>
          match lookupLast fields "diagrams" with
          | none => .error (.missingSection "diagrams")
          | some vd =>
            .ok ⟨repairSection vi, repairSection vm, repairSection vc,
                 repairSection ve, repairSection vd,
                 (lookupLast fields "ai_detection_score").getD (.num 0)⟩

/-- Python `str.strip()` whitespace characters. -/
def isPyWhitespace (c : Char) : Bool :=
  c = ' ' || c = '\t' || c = '\n' || c = '\r' || c = '\x0b' || c = '\x0c'

/-- Python `text.strip()`. -/
def pyStrip (l : List Char) : List Char :=
  ((l.dropWhile isPyWhitespace).reverse.dropWhile isPyWhitespace).reverse

/-- Python `text.find(c)`: index of the first occurrence (`none` for `-1`). -/
def lfindIdx (c : Char) : List Char → Option Nat
  | [] => none
  | a :: rest => if a = c then some 0 else (lfindIdx c rest).map (· + 1)

/-- Python `text.rfind(c)`: index of the last occurrence (`none` for `-1`). -/
def rfindIdx (c : Char) : List Char → Option Nat
  | [] => none
  | a :: rest =>
    match rfindIdx c rest with
    | some i => some (i + 1)
    | none => if a = c then some 0 else none

/-- The opening brace character. -/
def lbrace : Char := '\x7b'

/-- The closing brace character. -/
def rbrace : Char := '\x7d'

/-- A run of decimal digit characters as a natural number. -/
def parseDigits (l : List Char) : Option Nat :=
  match l with
  | [] => none
  | _ => if l.all (fun c => c.isDigit) then
           some (l.foldl (fun a c => a * 10 + (c.toNat - 48)) 0)
         else none

/-- An unsigned decimal literal `digits` or `digits.digits` as a rational. -/
def parseUnsigned (l : List Char) : Option ℚ :=
  match l.splitOn '.' with
  | [w] => (parseDigits w).map (fun n => (n : ℚ))
  | [w, f] =>
    match parseDigits w, parseDigits f with
    | some n, some m => some ((n : ℚ) + (m : ℚ) / (10 : ℚ) ^ f.length)
    | _, _ => none
  | _ => none

/-- Python `float(s)` on a string, restricted to plain signed decimal
literals (the full CPython grammar also admits exponents, `inf`, `nan`,
underscores; no obligation below depends on those, only on numerals
converting and non-numeric text raising). -/
def pyFloatOfString (l : List Char) : Option ℚ :=
  match pyStrip l with
  | '-' :: rest => (parseUnsigned rest).map (fun q => -q)
  | '+' :: rest => parseUnsigned rest
  | rest => parseUnsigned rest

/-- Python `float(x)` on a parsed JSON value: numbers and booleans convert,
numeric strings convert, `None`/lists/dicts and non-numeric strings raise
(`none`). -/
def pyFloat : JsonVal → Option ℚ
  | .num q => some q
  | .bool b => some (if b then 1 else 0)
  | .str s => pyFloatOfString s.data
  | _ => none

/-- Python `str(x)` on a parsed JSON value. Only the string case is
observable through the code's feedback fields; the renderings of the other
cases abstract CPython's `repr`-style output. -/
def pyStr : JsonVal → String
  | .str s => s
  | .bool b => if b then "True" else "False"
  | .null => "None"
  | .num _ => "<number>"
  | .arr _ => "<list>"
  | .obj _ => "<dict>"

/-- One attempt of the retry loop body, lines 123-153 of `src/utils.py`:
empty response check (`if not response or not response.text`), then
`text = response.text.strip()`, brace location via `find`/`rfind`, slice
`text[start_idx:end_idx]`, abstracted `json.loads`, and validation.
`parse` abstracts `json.loads`. -/
def normalizeAttempt (parse : List Char → Option JsonVal) (text : List Char) :
    Except ParseError RawRubric :=
  if text.isEmpty then .error .emptyResponse
  else
    let t := pyStrip text
    match lfindIdx lbrace t, rfindIdx rbrace t with
    | none, _ => .error .noJsonFound
    | some _, none => .error .noJsonFound
    | some s, some e =>
      if e + 1 ≤ s then .error .noJsonFound
      else
        match parse ((t.drop s).take (e + 1 - s)) with
        | none => .error .invalidJson
        | some (.obj fields) => validateObj fields
        | some _ => .error .topLevelNotObject

/-- One scaled section of the final result: a marks value and a feedback
string. -/
structure SectionResult where
  marks : ℚ
  feedback : String
  deriving DecidableEq

/-- The failure of the post-loop scaling phase (`float()` on a bad
`ai_detection_score` at line 205). -/
inductive ScaleError where
  | invalidDetectionScore
  deriving DecidableEq

/-- The final `scaled_result` record returned in grade mode. -/
structure GradingResult where
  introduction : SectionResult
  main_body : SectionResult
  conclusion : SectionResult
  examples : SectionResult
  diagrams : SectionResult
  total_marks : ℚ
  ai_detection_score : ℚ
  deriving DecidableEq

/-- `scaling_factor = max_marks / 10` (line 73). -/
def scalingFactor (maxMarks : ℚ) : ℚ := maxMarks / 10

/-- Lines 164-176: scale one base section.  `weight` is
`0.4 if section in ['introduction', 'main_body'] else 0.2`; a failing
`float()` yields marks 0 with feedback `Error calculating marks`. -/
def scaleBaseSection (maxMarks weight : ℚ) (s : RawSection) : SectionResult :=
  match pyFloat s.marks with
  | some m => ⟨min (m * scalingFactor maxMarks) (maxMarks * weight), pyStr s.feedback⟩
  | none => ⟨0, "Error calculating marks"⟩

/-- Line 183: `bonus_max = max_marks * (0.2 if (section == 'diagrams' and
diagrams_required) else 0.1)`. -/
def bonusMax (maxMarks : ℚ) (name : String) (diagramsRequired : Bool) : ℚ :=
  maxMarks * (if name = "diagrams" ∧ diagramsRequired then 2 / 10 else 1 / 10)

/-- Lines 179-197: scale one bonus section.  Positive marks are scaled and
capped at `bonusMax`; non-positive marks yield 0 with
`No <section> provided`; a failing `float()` yields 0 with
`Error calculating marks`. -/
def scaleBonusSection (maxMarks : ℚ) (diagramsRequired : Bool) (name : String)
    (s : RawSection) : SectionResult :=
  match pyFloat s.marks with
  | some m =>
    if 0 < m then
      ⟨min (m * scalingFactor maxMarks) (bonusMax maxMarks name diagramsRequired),
       pyStr s.feedback⟩
    else
      ⟨0, "No " ++ name ++ " provided"⟩
  | none => ⟨0, "Error calculating marks"⟩

/-- Lines 162-205: the whole scaling phase.  The five sections are scaled,
`total_marks = min(base_marks + bonus_marks, max_marks)`, and
`float(result.get('ai_detection_score', 0))` either succeeds or raises
(after all scaling work is done, outside the retry loop). -/
def scaleRubric (maxMarks : ℚ) (diagramsRequired : Bool) (r : RawRubric) :
    Except ScaleError GradingResult :=
  let i := scaleBaseSection maxMarks (4 / 10) r.introduction
  let mb := scaleBaseSection maxMarks (4 / 10) r.main_body
  let c := scaleBaseSection maxMarks (2 / 10) r.conclusion
  let ex := scaleBonusSection maxMarks diagramsRequired "examples" r.examples
  let dg := scaleBonusSection maxMarks diagramsRequired "diagrams" r.diagrams
  match pyFloat r.ai_detection_score with
  | none => .error .invalidDetectionScore
  | some d =>
    .ok ⟨i, mb, c, ex, dg,
         min ((i.marks + mb.marks + c.marks) + (ex.marks + dg.marks)) maxMarks, d⟩

/-- Pipeline-level failures of grade mode. -/
inductive PipelineError where
  | retriesExhausted (last : ParseError)
  | invalidDetectionScore
  deriving DecidableEq

/-- The retry loop, recursing on the number of retries remaining after the
current attempt.  `step i` is the combined external call plus normalization
of attempt `i`; the first component of the result counts the external calls
made.  With zero retries left, a failure of the final attempt is returned
as the loop's error (in the code, re-raised as the terminal `ValueError`). -/
def retryAux (step : Nat → Except ParseError RawRubric) (i : Nat) :
    Nat → Nat × Except ParseError RawRubric
  | 0 => (1, step i)
  | n + 1 =>
    match step i with
    | .ok r => (1, .ok r)
    | .error _ =>
      ((retryAux step (i + 1) n).1 + 1, (retryAux step (i + 1) n).2)

/-- `max_retries = 3` (line 117). -/
def maxRetries : Nat := 3

/-- Lines 117-160: run the loop for up to `maxRetries` attempts; when every
attempt fails, the terminal error wraps the last attempt's error (Python's
implicit exception chaining from `raise` inside `except`). -/
def runRetries (step : Nat → Except ParseError RawRubric) :
    Nat × Except PipelineError RawRubric :=
  let r := retryAux step 0 (maxRetries - 1)
  (r.1, r.2.mapError .retriesExhausted)

/-- Grade mode end to end: the retry loop followed by the scaling phase,
returning the number of external calls made alongside the outcome. -/
def analyzeGrade (step : Nat → Except ParseError RawRubric) (maxMarks : ℚ)
    (diagramsRequired : Bool) : Nat × Except PipelineError GradingResult :=
  match runRetries step with
  | (calls, .error e) => (calls, .error e)
  | (calls, .ok raw) =>
    match scaleRubric maxMarks diagramsRequired raw with
    | .error .invalidDetectionScore => (calls, .error .invalidDetectionScore)
    | .ok g => (calls, .ok g)

/-- The possible non-`None` return values of `analyze_with_gemini`. -/
inductive AnalyzeOutput where
  | graded (g : GradingResult)
  | reviewText (t : String)

/-- `analyze_with_gemini` (lines 62-223): dispatch on `mode`.  In grade
mode, attempt `i` calls the model (response text `responses i`) and
normalizes; in review mode a single call's text is returned verbatim, or
`No feedback available` when empty.  A mode other than `grade` and `review`
matches no branch, and the function returns Python `None` (`Option.none`). -/
def analyze_with_gemini (parse : List Char → Option JsonVal)
    (responses : Nat → List Char) (reviewResp : String) (maxMarks : ℚ)
    (mode : String) (diagramsRequired : Bool) :
    Except PipelineError (Option AnalyzeOutput) :=
  if mode = "grade" then
    match (analyzeGrade (fun i => normalizeAttempt parse (responses i))
            maxMarks diagramsRequired).2 with
    | .error e => .error e
    | .ok g => .ok (some (.graded g))
  else if mode = "review" then
    .ok (some (.reviewText (if reviewResp = "" then "No feedback available" else reviewResp)))
  else
    .ok none

/-- Modelled from the spec (sections 3 and 4.3), for comparison with the
code: scaled base-section marks computed after first clamping `raw_marks`
into `[0, 10]`, i.e. `min(clamp(raw) * scaling_factor, max_marks * weight)`. -/
def clampedBaseScaleSpec (maxMarks weight raw : ℚ) : ℚ :=
  min (min (max raw 0) 10 * scalingFactor maxMarks) (maxMarks * weight)

/-! ## Sample data used by witnesses -/

/-- A normalized rubric with ordinary numeric marks (the spec's end-to-end
scenario: 8/9/7 base, no bonus content, detection score 0). -/
def rub1 : RawRubric :=
  ⟨⟨.num 8, .str "a"⟩, ⟨.num 9, .str "b"⟩, ⟨.num 7, .str "c"⟩,
   ⟨.num 0, .str "d"⟩, ⟨.num 0, .str "e"⟩, .num 0⟩

/-- The scaled result of `rub1` at `max_marks = 10`. -/
def res1 : GradingResult :=
  ⟨⟨4, "a"⟩, ⟨4, "b"⟩, ⟨2, "c"⟩, ⟨0, "No examples provided"⟩,
   ⟨0, "No diagrams provided"⟩, 10, 0⟩

/-! ## Claims -/

/-- C1, counterexample.  The claim says `raw_marks` is clamped into
`[0, 10]` before scaling, so that raw marks `-5` are clamped to `0` and the
value used in scaling is never out of range.  The code
(`src/utils.py` lines 164-171) performs no clamp: with raw introduction
marks `-5` and `max_marks = 10` the scaled marks are `-5` (negative),
while the spec-modelled clamped computation yields `0`. -/
theorem C1_counterexample :
    (scaleBaseSection 10 (4 / 10) ⟨.num (-5), .str "fb"⟩).marks = -5
    ∧ clampedBaseScaleSpec 10 (4 / 10) (-5) = 0
    ∧ ((-5 : ℚ) ≠ 0) := by
  refine ⟨?_, ?_, by norm_num⟩
  · norm_num [scaleBaseSection, pyFloat, scalingFactor]
  · norm_num [clampedBaseScaleSpec, scalingFactor]

/-- C1, amended.  For every base section the code applies no clamp at all:
when `float()` fails the section becomes marks `0` with feedback
`Error calculating marks`, and when it yields a number `m` the scaled marks
are exactly `min(m * scaling_factor, max_marks * weight)` computed on the
unclamped `m` (so values above 10 are still capped by the ceiling, but
negative values pass through negative). -/
theorem C1_amended (maxMarks weight : ℚ) (s : RawSection) :
    (pyFloat s.marks = none →
      scaleBaseSection maxMarks weight s = ⟨0, "Error calculating marks"⟩)
    ∧ (∀ m : ℚ, pyFloat s.marks = some m →
      scaleBaseSection maxMarks weight s =
        ⟨min (m * scalingFactor maxMarks) (maxMarks * weight), pyStr s.feedback⟩) := by
  constructor
  · intro h
    simp [scaleBaseSection, h]
  · intro m h
    simp [scaleBaseSection, h]

/-- C1, witness for the amended claim at concrete inputs: a non-numeric
marks value collapses to `0` with the error feedback, and numeric marks 15
at `max_marks = 20` scale to `min(15 * 2, 20 * 0.4) = 8`. -/
theorem C1_amended_witness :
    scaleBaseSection 10 (4 / 10) ⟨.str "abc", .str "x"⟩ = ⟨0, "Error calculating marks"⟩
    ∧ scaleBaseSection 20 (4 / 10) ⟨.num 15, .str "x"⟩ =
        ⟨min (15 * scalingFactor 20) (20 * (4 / 10)), pyStr (.str "x")⟩ := by
  exact ⟨(C1_amended 10 (4 / 10) ⟨.str "abc", .str "x"⟩).1 rfl,
         (C1_amended 20 (4 / 10) ⟨.num 15, .str "x"⟩).2 15 rfl⟩

/-- C3: for a bonus section with positive numeric raw marks `m`, the
diagrams ceiling is `max_marks * 0.2` when `diagrams_required` and
`max_marks * 0.1` otherwise, while the examples ceiling is always
`max_marks * 0.1` (the code has no way to mark examples as required); the
scaled marks are `min(m * scaling_factor, ceiling)`. -/
theorem C3_bonus_ceiling (maxMarks : ℚ) (dr : Bool) (s : RawSection) (m : ℚ)
    (hm : pyFloat s.marks = some m) (hpos : 0 < m) :
    (scaleBonusSection maxMarks dr "diagrams" s).marks =
      min (m * scalingFactor maxMarks) (maxMarks * (if dr then 2 / 10 else 1 / 10))
    ∧ (scaleBonusSection maxMarks dr "examples" s).marks =
      min (m * scalingFactor maxMarks) (maxMarks * (1 / 10)) := by
  constructor
  · cases dr <;> simp [scaleBonusSection, hm, hpos, bonusMax]
  · simp [scaleBonusSection, hm, hpos, bonusMax]

/-- C3, witness: raw diagrams marks 10 at `max_marks = 20` scale to 4 when
diagrams are required and to 2 when they are not. -/
theorem C3_bonus_ceiling_witness :
    (scaleBonusSection 20 true "diagrams" ⟨.num 10, .str "f"⟩).marks = 4
    ∧ (scaleBonusSection 20 false "diagrams" ⟨.num 10, .str "f"⟩).marks = 2 := by
  have h1 := (C3_bonus_ceiling 20 true ⟨.num 10, .str "f"⟩ 10 rfl (by norm_num)).1
  have h2 := (C3_bonus_ceiling 20 false ⟨.num 10, .str "f"⟩ 10 rfl (by norm_num)).1
  rw [h1, h2]
  norm_num [scalingFactor]

/-- C5: a bonus section whose numeric raw marks are not strictly positive
scales to marks `0` with feedback `No examples provided` resp.
`No diagrams provided`, for every `max_marks` and either setting of
`diagrams_required`. -/
theorem C5_bonus_gate (maxMarks : ℚ) (dr : Bool) (s : RawSection) (m : ℚ)
    (hm : pyFloat s.marks = some m) (hle : m ≤ 0) :
    scaleBonusSection maxMarks dr "examples" s = ⟨0, "No examples provided"⟩
    ∧ scaleBonusSection maxMarks dr "diagrams" s = ⟨0, "No diagrams provided"⟩ := by
  constructor <;> simp [scaleBonusSection, hm, not_lt.mpr hle]

/-- C5, witness: raw examples marks 0 at `max_marks = 17` give scaled marks
0 with feedback `No examples provided`. -/
theorem C5_bonus_gate_witness :
    scaleBonusSection 17 true "examples" ⟨.num 0, .str "x"⟩ = ⟨0, "No examples provided"⟩
    ∧ scaleBonusSection 17 true "diagrams" ⟨.num 0, .str "x"⟩ = ⟨0, "No diagrams provided"⟩ :=
  C5_bonus_gate 17 true ⟨.num 0, .str "x"⟩ 0 rfl le_rfl

/-- C10: a bonus section whose marks value is present but not convertible
to a number scales to marks `0` with feedback `Error calculating marks` —
the same repair as the base-section numeric failure, and a different
feedback string than the `No <section> provided` zero-marks path. -/
theorem C10_bonus_error (maxMarks : ℚ) (dr : Bool) (s : RawSection)
    (h : pyFloat s.marks = none) :
    scaleBonusSection maxMarks dr "examples" s = ⟨0, "Error calculating marks"⟩
    ∧ scaleBonusSection maxMarks dr "diagrams" s = ⟨0, "Error calculating marks"⟩
    ∧ ("Error calculating marks" : String) ≠ "No examples provided"
    ∧ ("Error calculating marks" : String) ≠ "No diagrams provided" := by
  refine ⟨?_, ?_, by decide, by decide⟩ <;> simp [scaleBonusSection, h]

/-- C10, witness: examples marks `"abc"` at `max_marks = 20` give scaled
marks 0 with feedback `Error calculating marks`. -/
theorem C10_bonus_error_witness :
    scaleBonusSection 20 false "examples" ⟨.str "abc", .str "f"⟩ =
      ⟨0, "Error calculating marks"⟩
    ∧ scaleBonusSection 20 false "diagrams" ⟨.str "abc", .str "f"⟩ =
      ⟨0, "Error calculating marks"⟩ := by
  have h := C10_bonus_error 20 false ⟨.str "abc", .str "f"⟩ rfl
  exact ⟨h.1, h.2.1⟩

/-- A scaled base section never exceeds its ceiling `max_marks * weight`
(when that ceiling is nonnegative, which covers the error branch's 0). -/
lemma scaleBaseSection_marks_le (maxMarks weight : ℚ) (s : RawSection)
    (h : 0 ≤ maxMarks * weight) :
    (scaleBaseSection maxMarks weight s).marks ≤ maxMarks * weight := by
  cases hf : pyFloat s.marks <;> simp [scaleBaseSection, hf]
  exact h

/-- The bonus ceiling is nonnegative whenever `max_marks` is. -/
lemma bonusMax_nonneg (maxMarks : ℚ) (name : String) (dr : Bool)
    (h : 0 ≤ maxMarks) : 0 ≤ bonusMax maxMarks name dr := by
  unfold bonusMax
  split <;> positivity

/-- A scaled bonus section never exceeds its bonus ceiling (for
nonnegative `max_marks`, which covers the two zero branches). -/
lemma scaleBonusSection_marks_le (maxMarks : ℚ) (dr : Bool) (name : String)
    (s : RawSection) (h : 0 ≤ maxMarks) :
    (scaleBonusSection maxMarks dr name s).marks ≤ bonusMax maxMarks name dr := by
  have hb := bonusMax_nonneg maxMarks name dr h
  cases hf : pyFloat s.marks with
  | none => simpa [scaleBonusSection, hf] using hb
  | some m =>
    by_cases hm : 0 < m
    · simp [scaleBonusSection, hf, hm]
    · simpa [scaleBonusSection, hf, hm] using hb

/-- C2: every successfully scaled grade-mode result satisfies the cap
invariants: `total_marks = min(base_sum + bonus_sum, max_marks)` (hence
`total_marks ≤ max_marks`), each base section is at most
`max_marks * weight` with weights 0.4/0.4/0.2, and each bonus section is at
most its bonus ceiling. -/
theorem C2_cap_invariant (maxMarks : ℚ) (dr : Bool) (raw : RawRubric)
    (g : GradingResult) (hmax : 0 ≤ maxMarks)
    (h : scaleRubric maxMarks dr raw = .ok g) :
    g.total_marks ≤ maxMarks
    ∧ g.total_marks =
        min ((g.introduction.marks + g.main_body.marks + g.conclusion.marks) +
             (g.examples.marks + g.diagrams.marks)) maxMarks
    ∧ g.introduction.marks ≤ maxMarks * (4 / 10)
    ∧ g.main_body.marks ≤ maxMarks * (4 / 10)
    ∧ g.conclusion.marks ≤ maxMarks * (2 / 10)
    ∧ g.examples.marks ≤ bonusMax maxMarks "examples" dr
    ∧ g.diagrams.marks ≤ bonusMax maxMarks "diagrams" dr := by
  have h4 : (0 : ℚ) ≤ maxMarks * (4 / 10) := by positivity
  have h2 : (0 : ℚ) ≤ maxMarks * (2 / 10) := by positivity
  cases hd : pyFloat raw.ai_detection_score with
  | none => simp [scaleRubric, hd] at h
  | some d =>
    simp only [scaleRubric, hd] at h
    cases h
    refine ⟨min_le_right _ _, rfl,
      scaleBaseSection_marks_le maxMarks (4 / 10) raw.introduction h4,
      scaleBaseSection_marks_le maxMarks (4 / 10) raw.main_body h4,
      scaleBaseSection_marks_le maxMarks (2 / 10) raw.conclusion h2,
      scaleBonusSection_marks_le maxMarks dr "examples" raw.examples hmax,
      scaleBonusSection_marks_le maxMarks dr "diagrams" raw.diagrams hmax⟩

/-- C2, witness: the end-to-end sample rubric at `max_marks = 10` scales to
`res1`, whose total is capped at 10. -/
theorem C2_cap_invariant_witness :
    (0 : ℚ) ≤ 10
    ∧ scaleRubric 10 false rub1 = .ok res1
    ∧ res1.total_marks ≤ 10 := by
  have hs : scaleRubric 10 false rub1 = .ok res1 := by
    norm_num [scaleRubric, scaleBaseSection, scaleBonusSection, pyFloat, scalingFactor,
      bonusMax, rub1, res1, pyStr]
    exact ⟨rfl, rfl⟩
  exact ⟨by norm_num, hs,
    (C2_cap_invariant 10 false rub1 res1 (by norm_num) hs).1⟩

/-- C4: the retry loop makes attempts strictly in order with
`max_retries = 3`.  If all three attempts fail, exactly 3 calls are made
and the terminal error wraps the last attempt's error; if attempt `k`
(1-based, `k ≤ 3`) succeeds, exactly `k` calls are made and the loop stops
there with that attempt's rubric. -/
theorem C4_retry (step : Nat → Except ParseError RawRubric) :
    (∀ e0 e1 e2 : ParseError, step 0 = .error e0 → step 1 = .error e1 →
      step 2 = .error e2 →
      runRetries step = (3, .error (.retriesExhausted e2)))
    ∧ (∀ r : RawRubric, step 0 = .ok r → runRetries step = (1, .ok r))
    ∧ (∀ (e0 : ParseError) (r : RawRubric), step 0 = .error e0 → step 1 = .ok r →
      runRetries step = (2, .ok r))
    ∧ (∀ (e0 e1 : ParseError) (r : RawRubric), step 0 = .error e0 →
      step 1 = .error e1 → step 2 = .ok r →
      runRetries step = (3, .ok r)) := by
  refine ⟨fun e0 e1 e2 h0 h1 h2 => ?_, fun r h0 => ?_,
    fun e0 r h0 h1 => ?_, fun e0 e1 r h0 h1 h2 => ?_⟩
  · simp [runRetries, maxRetries, retryAux, h0, h1, h2, Except.mapError]
  · simp [runRetries, maxRetries, retryAux, h0, Except.mapError]
  · simp [runRetries, maxRetries, retryAux, h0, h1, Except.mapError]
  · simp [runRetries, maxRetries, retryAux, h0, h1, h2, Except.mapError]

/-- A normalization step that fails on every attempt. -/
def stepAllFail : Nat → Except ParseError RawRubric := fun _ => .error .invalidJson

/-- A normalization step that fails once, then succeeds with `rub1`. -/
def stepSecondOk : Nat → Except ParseError RawRubric := fun i =>
  if i = 0 then .error .emptyResponse else .ok rub1

/-- C4, witness: an always-failing step makes exactly 3 calls and ends in
the retries-exhausted error wrapping the last failure; a step succeeding on
attempt 2 makes exactly 2 calls. -/
theorem C4_retry_witness :
    runRetries stepAllFail = (3, .error (.retriesExhausted .invalidJson))
    ∧ runRetries stepSecondOk = (2, .ok rub1) := by
  constructor
  · exact (C4_retry stepAllFail).1 .invalidJson .invalidJson .invalidJson rfl rfl rfl
  · exact (C4_retry stepSecondOk).2.2.1 .emptyResponse rub1 rfl rfl

/-- C6: after a successful JSON parse of an object, validation fails iff
one of the five section keys is absent; a present section value that is
not an object, or lacks a `marks` or `feedback` key, is silently replaced
by `{marks: 0, feedback: 'No feedback available'}` and causes no failure. -/
theorem C6_validation (fields : List (String × JsonVal)) :
    ((∃ r, validateObj fields = .ok r) ↔
      ∀ n ∈ requiredFields, (lookupLast fields n).isSome = true)
    ∧ (∀ vi vm vc ve vd : JsonVal,
        lookupLast fields "introduction" = some vi →
        lookupLast fields "main_body" = some vm →
        lookupLast fields "conclusion" = some vc →
        lookupLast fields "examples" = some ve →
        lookupLast fields "diagrams" = some vd →
        validateObj fields = .ok ⟨repairSection vi, repairSection vm,
          repairSection vc, repairSection ve, repairSection vd,
          (lookupLast fields "ai_detection_score").getD (.num 0)⟩)
    ∧ (∀ v : JsonVal, (∀ fs, v ≠ .obj fs) →
        repairSection v = ⟨.num 0, .str "No feedback available"⟩)
    ∧ (∀ fs, (hasKey fs "marks" && hasKey fs "feedback") = false →
        repairSection (.obj fs) = ⟨.num 0, .str "No feedback available"⟩) := by
  have key : ∀ vi vm vc ve vd : JsonVal,
      lookupLast fields "introduction" = some vi →
      lookupLast fields "main_body" = some vm →
      lookupLast fields "conclusion" = some vc →
      lookupLast fields "examples" = some ve →
      lookupLast fields "diagrams" = some vd →
      validateObj fields = .ok ⟨repairSection vi, repairSection vm,
        repairSection vc, repairSection ve, repairSection vd,
        (lookupLast fields "ai_detection_score").getD (.num 0)⟩ := by
    intro vi vm vc ve vd h1 h2 h3 h4 h5
    simp [validateObj, h1, h2, h3, h4, h5]
  refine ⟨⟨?_, ?_⟩, key, ?_, ?_⟩
  · rintro ⟨r, hr⟩ n hn
    cases h1 : lookupLast fields "introduction" with
    | none => simp [validateObj, h1] at hr
    | some vi =>
      cases h2 : lookupLast fields "main_body" with
      | none => simp [validateObj, h1, h2] at hr
      | some vm =>
        cases h3 : lookupLast fields "conclusion" with
        | none => simp [validateObj, h1, h2, h3] at hr
        | some vc =>
          cases h4 : lookupLast fields "examples" with
          | none => simp [validateObj, h1, h2, h3, h4] at hr
          | some ve =>
            cases h5 : lookupLast fields "diagrams" with
            | none => simp [validateObj, h1, h2, h3, h4, h5] at hr
            | some vd =>
              simp only [requiredFields, List.mem_cons, List.not_mem_nil,
                or_false] at hn
              rcases hn with rfl | rfl | rfl | rfl | rfl <;>
                simp [h1, h2, h3, h4, h5]
  · intro h
    obtain ⟨vi, h1⟩ := Option.isSome_iff_exists.mp
      (h "introduction" (by simp [requiredFields]))
    obtain ⟨vm, h2⟩ := Option.isSome_iff_exists.mp
      (h "main_body" (by simp [requiredFields]))
    obtain ⟨vc, h3⟩ := Option.isSome_iff_exists.mp
      (h "conclusion" (by simp [requiredFields]))
    obtain ⟨ve, h4⟩ := Option.isSome_iff_exists.mp
      (h "examples" (by simp [requiredFields]))
    obtain ⟨vd, h5⟩ := Option.isSome_iff_exists.mp
      (h "diagrams" (by simp [requiredFields]))
    exact ⟨_, key vi vm vc ve vd h1 h2 h3 h4 h5⟩
  · intro v hv
    cases v with
    | obj fs => exact absurd rfl (hv fs)
    | null => rfl
    | bool b => rfl
    | num q => rfl
    | str s => rfl
    | arr xs => rfl
  · intro fs hf
    simp [repairSection, hf]

/-- A parsed object with all five sections present, where `main_body` is a
non-object and `examples` lacks its `feedback` key. -/
def fieldsB : List (String × JsonVal) :=
  [("introduction", .obj [("marks", .num 8), ("feedback", .str "good")]),
   ("main_body", .str "oops"),
   ("conclusion", .obj [("marks", .num 7), ("feedback", .str "ok")]),
   ("examples", .obj [("marks", .num 0)]),
   ("diagrams", .obj [("marks", .num 1), ("feedback", .str "nice")]),
   ("ai_detection_score", .num 0)]

/-- C6, witness: on `fieldsB` validation succeeds, repairing the malformed
`main_body` and `examples` sections to the default and keeping the healthy
ones. -/
theorem C6_validation_witness :
    validateObj fieldsB = .ok ⟨⟨.num 8, .str "good"⟩,
      ⟨.num 0, .str "No feedback available"⟩, ⟨.num 7, .str "ok"⟩,
      ⟨.num 0, .str "No feedback available"⟩, ⟨.num 1, .str "nice"⟩, .num 0⟩ := by
  have h := (C6_validation fieldsB).2.1 _ _ _ _ _ rfl rfl rfl rfl rfl
  exact h

/-- An abstracted `json.loads` that never succeeds. -/
def parseNone : List Char → Option JsonVal := fun _ => none

/-- C7, counterexample.  The claim says empty or whitespace-only input
fails with `EmptyResponse`; but the code checks `not response.text` before
calling `.strip()`, so the whitespace-only input `' '` passes the emptiness
check, strips to `''`, finds no brace, and fails with `NoJsonFound`
instead. -/
theorem C7_counterexample :
    normalizeAttempt parseNone [' '] = .error .noJsonFound
    ∧ ParseError.noJsonFound ≠ ParseError.emptyResponse :=
  ⟨rfl, by decide⟩

/-- C7, amended.  `EmptyResponse` is raised only for genuinely empty input;
whitespace-only input instead strips to the empty string and fails with
`NoJsonFound`.  Otherwise the stripped text is sliced from the first `{`
to the last `}` inclusive: `NoJsonFound` when there is no `{`, no `}`, or
the last `}` is not after the first `{`; `InvalidJson` when the slice does
not parse; and a slice parsing to an object is validated (so a JSON object
wrapped in leading or trailing prose is still located and parsed). -/
theorem C7_amended (parse : List Char → Option JsonVal) (text : List Char) :
    (text = [] → normalizeAttempt parse text = .error .emptyResponse)
    ∧ (text.isEmpty = false → lfindIdx lbrace (pyStrip text) = none →
        normalizeAttempt parse text = .error .noJsonFound)
    ∧ (∀ s : Nat, text.isEmpty = false →
        lfindIdx lbrace (pyStrip text) = some s →
        rfindIdx rbrace (pyStrip text) = none →
        normalizeAttempt parse text = .error .noJsonFound)
    ∧ (∀ s e : Nat, text.isEmpty = false →
        lfindIdx lbrace (pyStrip text) = some s →
        rfindIdx rbrace (pyStrip text) = some e → e + 1 ≤ s →
        normalizeAttempt parse text = .error .noJsonFound)
    ∧ (∀ s e : Nat, text.isEmpty = false →
        lfindIdx lbrace (pyStrip text) = some s →
        rfindIdx rbrace (pyStrip text) = some e → s ≤ e →
        parse (((pyStrip text).drop s).take (e + 1 - s)) = none →
        normalizeAttempt parse text = .error .invalidJson)
    ∧ (∀ (s e : Nat) (fs : List (String × JsonVal)), text.isEmpty = false →
        lfindIdx lbrace (pyStrip text) = some s →
        rfindIdx rbrace (pyStrip text) = some e → s ≤ e →
        parse (((pyStrip text).drop s).take (e + 1 - s)) = some (.obj fs) →
        normalizeAttempt parse text = validateObj fs) := by
  refine ⟨?_, ?_, ?_, ?_, ?_, ?_⟩
  · intro h
    subst h
    rfl
  · intro hE hf
    simp [normalizeAttempt, hE, hf]
  · intro s hE hf hr
    simp [normalizeAttempt, hE, hf, hr]
  · intro s e hE hf hr hle
    simp [normalizeAttempt, hE, hf, hr, hle]
  · intro s e hE hf hr hse hp
    have hne : ¬(e + 1 ≤ s) := by omega
    simp [normalizeAttempt, hE, hf, hr, hne, hp]
  · intro s e fs hE hf hr hse hp
    have hne : ¬(e + 1 ≤ s) := by omega
    simp [normalizeAttempt, hE, hf, hr, hne, hp]

/-- A grading response consisting of a JSON object wrapped in prose. -/
def proseText : List Char := "noise \x7bkey\x7d tail".data

/-- An abstracted `json.loads` that recognizes exactly the embedded
object slice of `proseText`, mapping it to the parsed object `fieldsB`. -/
def proseParse : List Char → Option JsonVal := fun l =>
  if l = "\x7bkey\x7d".data then some (.obj fieldsB) else none

/-- C7, witness for the amended claim: empty input gives `EmptyResponse`;
the prose-wrapped response is sliced between indices 6 and 10, and exactly
the embedded object slice is handed to the JSON parser, whose parsed
object then flows to validation. -/
theorem C7_amended_witness :
    normalizeAttempt proseParse [] = .error .emptyResponse
    ∧ normalizeAttempt parseNone [' '] = .error .noJsonFound
    ∧ normalizeAttempt proseParse proseText = validateObj fieldsB := by
  refine ⟨(C7_amended proseParse []).1 rfl,
    (C7_amended parseNone [' ']).2.1 rfl rfl,
    (C7_amended proseParse proseText).2.2.2.2.2 6 10 fieldsB rfl rfl rfl
      (by norm_num) rfl⟩

/-- C8: a missing `ai_detection_score` key is defaulted to `0.0` during
validation; a present score is coerced with `float()` after the retry loop
has finished, so a non-coercible score fails the whole scale step with
`invalidDetectionScore` without making any further external call, and a
coercible one is copied through to the result. -/
theorem C8_detection_score :
    (∀ (step : Nat → Except ParseError RawRubric) (maxMarks : ℚ) (dr : Bool)
        (calls : Nat) (raw : RawRubric),
      runRetries step = (calls, .ok raw) →
      pyFloat raw.ai_detection_score = none →
      analyzeGrade step maxMarks dr = (calls, .error .invalidDetectionScore))
    ∧ (∀ (fields : List (String × JsonVal)) (r : RawRubric),
        lookupLast fields "ai_detection_score" = none →
        validateObj fields = .ok r → r.ai_detection_score = .num 0)
    ∧ (∀ (raw : RawRubric) (maxMarks : ℚ) (dr : Bool) (d : ℚ),
        pyFloat raw.ai_detection_score = some d →
        ∃ g, scaleRubric maxMarks dr raw = .ok g ∧ g.ai_detection_score = d) := by
  refine ⟨?_, ?_, ?_⟩
  · intro step maxMarks dr calls raw h h2
    simp [analyzeGrade, h, scaleRubric, h2]
  · intro fields r hnone hok
    cases h1 : lookupLast fields "introduction" <;>
      simp [validateObj, h1] at hok
    cases h2 : lookupLast fields "main_body" <;>
      simp [validateObj, h1, h2] at hok
    cases h3 : lookupLast fields "conclusion" <;>
      simp [validateObj, h1, h2, h3] at hok
    cases h4 : lookupLast fields "examples" <;>
      simp [validateObj, h1, h2, h3, h4] at hok
    cases h5 : lookupLast fields "diagrams" <;>
      simp [validateObj, h1, h2, h3, h4, h5] at hok
    subst hok
    simp [hnone]
  · intro raw maxMarks dr d h
    simp only [scaleRubric, h]
    exact ⟨_, rfl, rfl⟩

/-- A normalized rubric whose detection score is a non-numeric string. -/
def rubBadScore : RawRubric :=
  ⟨⟨.num 8, .str "a"⟩, ⟨.num 9, .str "b"⟩, ⟨.num 7, .str "c"⟩,
   ⟨.num 0, .str "d"⟩, ⟨.num 0, .str "e"⟩, .str "abc"⟩

/-- A normalization step succeeding immediately with `rubBadScore`. -/
def stepBadScore : Nat → Except ParseError RawRubric := fun _ => .ok rubBadScore

/-- A parsed object with all five sections healthy and no
`ai_detection_score` key. -/
def fieldsC : List (String × JsonVal) :=
  [("introduction", .obj [("marks", .num 1), ("feedback", .str "f1")]),
   ("main_body", .obj [("marks", .num 2), ("feedback", .str "f2")]),
   ("conclusion", .obj [("marks", .num 3), ("feedback", .str "f3")]),
   ("examples", .obj [("marks", .num 0), ("feedback", .str "f4")]),
   ("diagrams", .obj [("marks", .num 0), ("feedback", .str "f5")])]

/-- The validated rubric of `fieldsC`, with the defaulted detection
score. -/
def rubC : RawRubric :=
  ⟨⟨.num 1, .str "f1"⟩, ⟨.num 2, .str "f2"⟩, ⟨.num 3, .str "f3"⟩,
   ⟨.num 0, .str "f4"⟩, ⟨.num 0, .str "f5"⟩, .num 0⟩

/-- C8, witness: a first-attempt success whose score is `"abc"` fails the
whole grade with `invalidDetectionScore` after exactly that one call; a
parsed object without the score key validates to a rubric with score 0;
and a numeric score 0 is copied through scaling. -/
theorem C8_detection_score_witness :
    analyzeGrade stepBadScore 10 false = (1, .error .invalidDetectionScore)
    ∧ rubC.ai_detection_score = .num 0
    ∧ ∃ g, scaleRubric 10 false rub1 = .ok g ∧ g.ai_detection_score = 0 := by
  refine ⟨C8_detection_score.1 stepBadScore 10 false 1 rubBadScore rfl rfl,
    C8_detection_score.2.1 fieldsC rubC rfl rfl,
    C8_detection_score.2.2 rub1 10 false 0 rfl⟩

/-- C9: for every mode other than `grade` and `review`,
`analyze_with_gemini` matches no branch and returns Python `None`, raising
nothing. -/
theorem C9_other_modes (parse : List Char → Option JsonVal)
    (responses : Nat → List Char) (reviewResp : String) (maxMarks : ℚ)
    (mode : String) (dr : Bool) (h1 : mode ≠ "grade") (h2 : mode ≠ "review") :
    analyze_with_gemini parse responses reviewResp maxMarks mode dr = .ok none := by
  simp [analyze_with_gemini, h1, h2]

/-- C9, witness: mode `summarize` returns `None`. -/
theorem C9_other_modes_witness :
    analyze_with_gemini parseNone (fun _ => []) "" 10 "summarize" false = .ok none :=
  C9_other_modes parseNone (fun _ => []) "" 10 "summarize" false
    (by decide) (by decide)

end AssignmentGrading
